import Mathlib

/-!
Verification of `src/ui/desktop/src/components/ReportFailureModal.tsx`.

The component is a modal dialog: form state (description text, submission
flags, issue URL) plus async side effects (diagnostics fetches, report
submission) and conditional rendering. We embed it shallowly:

- component-local React state becomes the structure `ModalState`;
- each event handler (the open `useEffect`, `handleSubmit`, `handleClose`,
  the textarea change) becomes a pure function `ModalState → ModalState × Effects`,
  where `Effects` records the observable side effects the handler performed
  (alert shown, network dispatch, close callback invoked, diagnostics kicked off);
- async fetch outcomes become inductive types enumerating the cases the
  JavaScript distinguishes (thrown exception, non-ok response, parsed body);
  a `try/catch` that maps a thrown exception to a state update is embedded by
  a total function whose exception constructor maps to that update, so
  totality of the Lean function encodes that no exception escapes;
- JavaScript string truthiness (empty string and undefined are falsy) is
  embedded by `jsTruthy` / `jsOrElse` over `Option String`, where `none`
  models `undefined`;
- the JSON payload built by `handleSubmit` and serialized by
  `JSON.stringify` is embedded as an ordered association list of fields
  (`Jx` is a small JSON value type); `JSON.stringify` drops fields holding
  `undefined`, which matters for the optional `providerType` field.

Strings are modelled at the character level: JavaScript `substring(0, 60)`
and `.length` operate on UTF-16 units, which coincide with characters for
the inputs the claims quantify over; we use the character list `String.data`.
-/

namespace ReportFailureModal

/-- JavaScript truthiness of a possibly-undefined string: `none` models
`undefined`, and the empty string is falsy. -/
def jsTruthy : Option String → Bool
  | none => false
  | some s => s ≠ ""

/-- JavaScript `String.prototype.trim`: strips whitespace from both ends,
embedded over the character list (kernel-reducible, unlike the builtin
iterator-based trim). -/
def jsTrim (s : String) : String :=
  String.mk (List.rdropWhile Char.isWhitespace (List.dropWhile Char.isWhitespace s.data))

/-- The JavaScript expression `a || k` for a possibly-undefined string `a`
and a string literal default `k`. -/
def jsOrElse (a : Option String) (k : String) : String :=
  match a with
  | none => k
  | some s => if s = "" then k else s

/-- A possibly-absent string field of a parsed JSON object: `undef` models a
missing field (reading it yields `undefined`). -/
inductive JsStrField
  | undef
  | str (s : String)
deriving Repr, DecidableEq

/-- Reading the field: a missing field reads as `undefined` (`none`). -/
def JsStrField.toOption : JsStrField → Option String
  | .undef => none
  | .str s => some s

/-- A small JSON value type, enough to state what `JSON.stringify` sends. -/
inductive Jx
  | null
  | str (s : String)
  | num (n : Nat)
  | arr (l : List Jx)
  | obj (l : List (String × Jx))
deriving Repr

/-- The `SystemInfo` interface (source lines 9-16). `providerType` is the
optional field; `extensionCount` is a number. `osVersion` holds
`navigator.userAgent`. -/
structure SystemInfo where
  gooseVersion : String
  osVersion : String
  platform : String
  architecture : String
  providerType : Option String
  extensionCount : Nat
deriving Repr, DecidableEq

/-- JSON encoding of a `SystemInfo` object under `JSON.stringify`: fields in
assignment order; an unset optional `providerType` is `undefined` and is
dropped by `JSON.stringify`. -/
def SystemInfo.toJx (si : SystemInfo) : Jx :=
  .obj ([("gooseVersion", .str si.gooseVersion),
         ("osVersion", .str si.osVersion),
         ("platform", .str si.platform),
         ("architecture", .str si.architecture)]
        ++ (match si.providerType with
            | none => []
            | some p => [("providerType", Jx.str p)])
        ++ [("extensionCount", .num si.extensionCount)])

/-- Body of the extension-list response as `response.json()` sees it:
the parse may throw, the parsed value may be an array (of some length)
or not an array. -/
inductive ExtBody
  | parseFail
  | arrayOf (n : Nat)
  | notArray
deriving Repr, DecidableEq

/-- Outcome of the `fetch` of the extension list in `getExtensionCount`
(source lines 31-58): the fetch itself may throw (`netError`), or return a
response with an `ok` flag and a body (the body is only consulted when
`ok` is true). -/
inductive ExtFetch
  | netError
  | resp (ok : Bool) (body : ExtBody)
deriving Repr, DecidableEq

/-- `getExtensionCount` (source lines 31-58), embedded over the fetch
outcome. Returns the count together with whether the failure path logged
via `console.error` (only the `catch` block logs: a thrown fetch or a
throwing `response.json()`; a non-ok response falls through to `return 0`
without logging). Totality of this function embeds that no exception
propagates out of `getExtensionCount`. -/
def getExtensionCount : ExtFetch → Nat × Bool
  | .netError => (0, true)
  | .resp ok body =>
      if ok then
        match body with
        | .parseFail => (0, true)
        | .arrayOf n => (n, false)
        | .notArray => (0, false)
      else (0, false)

/-- An extension-list fetch outcome counts as a failure when it does not
deliver an array to take the length of. -/
def extFailure : ExtFetch → Bool
  | .resp true (.arrayOf _) => false
  | _ => true

/-- The outcomes on which the JavaScript `catch` block runs, i.e. an
exception was thrown inside the `try`: a throwing `fetch`, or an ok
response whose `response.json()` throws. -/
def extFetchThrew : ExtFetch → Bool
  | .netError => true
  | .resp true .parseFail => true
  | _ => false

/-- Outcome of the provider-list lookup in `collectSystemInfo` (source
lines 76-95): the providers body is modelled as a parsed array of objects,
each with a possibly-absent `name` field; `nonArrayBody` covers an ok
response whose JSON is not an array, `parseFail` a throwing `json()`. -/
inductive ProvFetch
  | netError
  | parseFail
  | nonArrayBody
  | providers (l : List JsStrField)
deriving Repr, DecidableEq

/-- The provider detection of `collectSystemInfo` (source lines 76-95):
`info.providerType` is set only when the response is ok, parses to a
non-empty array; it is `providers[0].name || 'Unknown Provider'`. Every
failure is swallowed (the inner `catch`), leaving the field unset. -/
def detectProvider : ProvFetch → Option String
  | .providers (p :: _) => some (jsOrElse p.toOption "Unknown Provider")
  | _ => none

/-- `collectSystemInfo`'s construction of the `SystemInfo` record (source
lines 60-97), over the ambient inputs: the two config lookups
`window.appConfig?.get('GOOSE_VERSION')` and `window.appConfig?.get('version')`,
the platform bridge fields `window.electron?.platform` / `window.electron?.arch`
(each `none` when the accessor or bridge is unavailable), the user agent,
and the two fetch outcomes. -/
def collectSystemInfo (gooseVersionCfg versionCfg platformBridge archBridge : Option String)
    (userAgent : String) (ext : ExtFetch) (prov : ProvFetch) : SystemInfo :=
  { gooseVersion := jsOrElse gooseVersionCfg (jsOrElse versionCfg "Development")
    osVersion := userAgent
    platform := jsOrElse platformBridge "Unknown"
    architecture := jsOrElse archBridge "Unknown"
    providerType := detectProvider prov
    extensionCount := (getExtensionCount ext).1 }

/-- The `submitStatus` state variable: `'idle' | 'success' | 'error'`
(source line 28). -/
inductive SubStatus
  | idle
  | success
  | error
deriving Repr, DecidableEq

/-- The component-local React state relevant to the claims (source lines
24-29). `issueUrl` is `some s` for a string value and `none` for
`undefined` (the initial value is the empty string `some ""`;
`setIssueUrl(result.issueUrl)` can store `undefined`). -/
structure ModalState where
  description : String
  isSubmitting : Bool
  submitStatus : SubStatus
  issueUrl : Option String
deriving Repr, DecidableEq

/-- The `useState` initial values (source lines 24-29). -/
def initState : ModalState :=
  { description := "", isSubmitting := false, submitStatus := .idle, issueUrl := some "" }

/-- Observable side effects of one handler invocation. -/
structure Effects where
  alerted : Bool
  dispatched : Bool
  closeInvoked : Bool
  diagnosticsTriggered : Bool
deriving Repr, DecidableEq

/-- No side effects. -/
def noEffects : Effects :=
  { alerted := false, dispatched := false, closeInvoked := false, diagnosticsTriggered := false }

/-- The title built by `handleSubmit` (source line 155):
`[FAILURE REPORT]` plus a space, then `description.substring(0, 60)`, then
`'...'` exactly when `description.length > 60`. -/
def mkTitle (description : String) : String :=
  "[FAILURE REPORT] " ++ String.mk (description.data.take 60)
    ++ (if description.data.length > 60 then "..." else "")

/-- The `issueData` object built and `JSON.stringify`-ed by `handleSubmit`
(source lines 154-160), as the ordered field list of the serialized JSON
object. `systemInfo` state is `null` until collection finishes, hence the
`Option`. -/
def issueData (description : String) (systemInfo : Option SystemInfo)
    (recentErrors : List String) (timestamp : String) : List (String × Jx) :=
  [("title", .str (mkTitle description)),
   ("description", .str description),
   ("systemInfo", match systemInfo with | none => Jx.null | some si => si.toJx),
   ("recentErrors", .arr (recentErrors.map Jx.str)),
   ("timestamp", .str timestamp)]

/-- Body of the report-submission response as the ok branch sees it
(source lines 180-181): `await response.json()` may reject
(`parseFail`); the parsed value may be `null` or `undefined`, on which the
`result.issueUrl` property access throws (`nullBody`); otherwise the body
carries a possibly-absent `issueUrl` field. Both throwing cases land in
the `catch`. -/
inductive SubmitBody
  | parseFail
  | nullBody
  | parsed (issueUrl : JsStrField)
deriving Repr, DecidableEq

/-- Outcome of the report-submission `fetch` (source lines 173-177): a
thrown fetch (`netError`) or a response with an `ok` flag; the body is
only consulted when `ok` is true. -/
inductive SubmitOutcome
  | netError
  | resp (ok : Bool) (body : SubmitBody)
deriving Repr, DecidableEq

/-- Whether the outcome is a failed HTTP call: a network exception or a
non-ok response. -/
def SubmitOutcome.isFailure : SubmitOutcome → Bool
  | .netError => true
  | .resp ok _ => !ok

/-- The synchronous prefix of `handleSubmit` (source lines 143-151): the
trim validation with its blocking `window.alert`, then
`setIsSubmitting(true); setSubmitStatus('idle')` and the dispatch of the
POST to `/report-failure`. -/
def handleSubmitStart (s : ModalState) : ModalState × Effects :=
  if jsTrim s.description = "" then
    (s, { noEffects with alerted := true })
  else
    ({ s with isSubmitting := true, submitStatus := .idle },
     { noEffects with dispatched := true })

/-- The continuation of `handleSubmit` after the awaited fetch settles
(source lines 179-191): an ok response whose body parses and yields the
`issueUrl` property stores it and sets status `success`; a non-ok
response, a thrown fetch, a rejecting `response.json()`, or a throwing
`result.issueUrl` access sets status `error` (the `catch` block, so no
exception escapes — in the two throwing ok-branch cases the throw happens
before `setIssueUrl`, so the stored issue URL is untouched); the `finally`
clears `isSubmitting` on every path. -/
def applyOutcome (out : SubmitOutcome) (s : ModalState) : ModalState :=
  match out with
  | .netError => { s with submitStatus := .error, isSubmitting := false }
  | .resp ok body =>
      if ok then
        match body with
        | .parseFail => { s with submitStatus := .error, isSubmitting := false }
        | .nullBody => { s with submitStatus := .error, isSubmitting := false }
        | .parsed u =>
            { s with issueUrl := u.toOption, submitStatus := .success, isSubmitting := false }
      else
        { s with submitStatus := .error, isSubmitting := false }

/-- `handleClose` (source lines 194-198): invokes `onClose` only when no
submission is in flight. -/
def handleClose (s : ModalState) : ModalState × Effects :=
  if s.isSubmitting then (s, noEffects)
  else (s, { noEffects with closeInvoked := true })

/-- Whether the Submit Report button can fire `handleSubmit`: it is
rendered only while `submitStatus !== 'success'` (source line 311) and is
disabled while `isSubmitting || !description.trim()` (source line 314). -/
def submitButtonUsable (s : ModalState) : Bool :=
  s.submitStatus ≠ .success && !s.isSubmitting && jsTrim s.description ≠ ""

/-- UI events driving the component. `openModal` is the `isOpen` prop
turning true (the `useEffect` body, source lines 132-141); `setDesc` is the
textarea change; `submitClick` is a click on the Submit Report button;
`submitComplete` is the settling of the in-flight submission;
`closeRequest` is a press of Cancel/Close or a backdrop close attempt. -/
inductive Event
  | openModal
  | setDesc (d : String)
  | submitClick
  | submitComplete (out : SubmitOutcome)
  | closeRequest

/-- One step of the component. The `useEffect` resets description, status
and issue URL and fires the diagnostics collectors; the textarea is
disabled while submitting (source line 245); the submit click goes through
the button guard; a completion can only exist for an in-flight submission
(`isSubmitting`, the only setter of which back to false is the `finally`);
closing goes through `handleClose`. -/
def step : Event → ModalState → ModalState × Effects
  | .openModal, s =>
      ({ s with description := "", submitStatus := .idle, issueUrl := some "" },
       { noEffects with diagnosticsTriggered := true })
  | .setDesc d, s =>
      (if s.isSubmitting then s else { s with description := d }, noEffects)
  | .submitClick, s =>
      if submitButtonUsable s then handleSubmitStart s else (s, noEffects)
  | .submitComplete out, s =>
      (if s.isSubmitting then applyOutcome out s else s, noEffects)
  | .closeRequest, s => handleClose s

/-- The abstract submission status of the spec:
`{Idle, Submitting, Success, Error}`. The code carries it as the pair
`isSubmitting` / `submitStatus`; a submission in flight renders the
Submitting branch regardless of the stored `submitStatus`. -/
inductive Status
  | idle
  | submitting
  | success
  | error
deriving Repr, DecidableEq

/-- The status the UI is in: Submitting while a submission is in flight,
otherwise the stored `submitStatus`. -/
def derivedStatus (s : ModalState) : Status :=
  if s.isSubmitting then .submitting
  else
    match s.submitStatus with
    | .idle => .idle
    | .success => .success
    | .error => .error

/-- The transition relation the claim states: Idle to Submitting on submit
click, Submitting to Success or Error on completion, back to Idle on the
next open, nothing else (staying in place is not a transition). -/
def claimAllowed (a : Status) (e : Event) (b : Status) : Bool :=
  a = b ||
  (match e with
   | .submitClick => a = .idle && b = .submitting
   | .submitComplete _ => a = .submitting && (b = .success || b = .error)
   | .openModal => b = .idle
   | _ => false)

/-- The transition relation the code realizes: as claimed, plus the retry
transition Error to Submitting on a submit click (the Submit Report button
stays available in the Error branch). -/
def codeAllowed (a : Status) (e : Event) (b : Status) : Bool :=
  a = b ||
  (match e with
   | .submitClick => (a = .idle || a = .error) && b = .submitting
   | .submitComplete _ => a = .submitting && (b = .success || b = .error)
   | .openModal => b = .idle
   | _ => false)

/-- The manual fallback link rendered by the Error branch (source lines
284-303): the form branch renders only while `submitStatus` is not
`success` (source line 213), and the inline failure notice with the GitHub
template link renders exactly when `submitStatus === 'error'`. -/
def renderManualLink (s : ModalState) : Option String :=
  if s.submitStatus = .success then none
  else if s.submitStatus = .error then
    some "https://github.com/block/goose/issues/new?template=bug_report.md"
  else none

/-- The View Issue link of the Success branch (source lines 213-230): it
renders inside the `submitStatus === 'success'` branch, guarded by the
truthiness of `issueUrl` (so neither `undefined` nor the empty string
shows it), and opens the stored URL. -/
def viewIssueLink (s : ModalState) : Option String :=
  if s.submitStatus = .success then
    match s.issueUrl with
    | none => none
    | some u => if u = "" then none else some u
  else none

/-! ## Claims -/

/-- C1: for every state whose description trims to empty, `handleSubmit`
leaves the state unchanged (in particular the submission status never
moves away from Idle), dispatches no network call to the report endpoint,
and instead shows the blocking validation alert and returns. -/
theorem c1_empty_description_aborts (s : ModalState)
    (h : jsTrim s.description = "") :
    (handleSubmitStart s).1 = s ∧
    (handleSubmitStart s).2.dispatched = false ∧
    (handleSubmitStart s).2.alerted = true := by
  simp [handleSubmitStart, h, noEffects]

/-- Witness for C1 at the whitespace-only description. -/
theorem c1_empty_description_aborts_witness :
    jsTrim "   " = "" ∧
    ((handleSubmitStart { initState with description := "   " }).1
        = { initState with description := "   " } ∧
      (handleSubmitStart { initState with description := "   " }).2.dispatched = false ∧
      (handleSubmitStart { initState with description := "   " }).2.alerted = true) :=
  ⟨by decide, c1_empty_description_aborts { initState with description := "   " } (by decide)⟩

/-- C2: the open transition resets the description to empty, the stored
submission status to Idle, clears the stored issue URL back to its initial
empty value (so no View Issue link can render from it), and fires the
diagnostics collection, for every prior form state. -/
theorem c2_open_resets_form (s : ModalState) :
    (step .openModal s).1.description = "" ∧
    (step .openModal s).1.submitStatus = .idle ∧
    (step .openModal s).1.issueUrl = some "" ∧
    viewIssueLink (step .openModal s).1 = none ∧
    (step .openModal s).2.diagnosticsTriggered = true := by
  simp [step, viewIssueLink, noEffects]

/-- C3: every failed HTTP call (network exception or non-ok response)
settles the in-flight submission with status Error — the function being
total embeds that the `catch` lets no exception escape — and the Error
branch then renders the manual fallback link to the GitHub bug-report
template. -/
theorem c3_failed_submission_renders_fallback (s : ModalState) (out : SubmitOutcome)
    (hs : s.isSubmitting = true) (hf : out.isFailure = true) :
    (step (.submitComplete out) s).1.submitStatus = .error ∧
    renderManualLink (step (.submitComplete out) s).1
      = some "https://github.com/block/goose/issues/new?template=bug_report.md" := by
  cases out with
  | netError =>
      simp [step, hs, applyOutcome, renderManualLink]
  | resp ok body =>
      have hok : ok = false := by
        simpa [SubmitOutcome.isFailure] using hf
      subst hok
      simp [step, hs, applyOutcome, renderManualLink]

/-- Witness for C3: a network error on an in-flight submission. -/
theorem c3_failed_submission_renders_fallback_witness :
    ({ initState with description := "x", isSubmitting := true } : ModalState).isSubmitting = true ∧
    SubmitOutcome.netError.isFailure = true ∧
    ((step (.submitComplete .netError)
        { initState with description := "x", isSubmitting := true }).1.submitStatus = .error ∧
      renderManualLink (step (.submitComplete .netError)
        { initState with description := "x", isSubmitting := true }).1
        = some "https://github.com/block/goose/issues/new?template=bug_report.md") :=
  ⟨rfl, rfl,
    c3_failed_submission_renders_fallback
      { initState with description := "x", isSubmitting := true } .netError rfl rfl⟩

/-- C4 counterexample, refuting the claim on two concrete inputs. First,
an ok response whose parsed body carries the `issueUrl` field holding the
empty string: the status becomes Success and the field is present in the
response, yet the View Issue link does not render (the JavaScript guard is
truthiness, and the empty string is falsy), refuting the claimed
if-and-only-if. Second, an ok response whose `response.json()` rejects:
the `catch` sets status Error, refuting that every OK response yields
Success. -/
theorem c4_counterexample :
    (step (.submitComplete (.resp true (.parsed (.str ""))))
        { initState with description := "x", isSubmitting := true }).1.submitStatus
      = .success ∧
    (JsStrField.str "").toOption.isSome = true ∧
    viewIssueLink (step (.submitComplete (.resp true (.parsed (.str ""))))
        { initState with description := "x", isSubmitting := true }).1 = none ∧
    (step (.submitComplete (.resp true .parseFail))
        { initState with description := "x", isSubmitting := true }).1.submitStatus
      = .error := by
  refine ⟨rfl, rfl, rfl, rfl⟩

/-- C4 (amended): an ok response whose body parses and yields the
`issueUrl` property settles the in-flight submission with status Success
and stores that field; the View Issue link renders if and only if the
field holds a nonempty string. An ok response whose body parse rejects, or
whose parsed body is null so that the property access throws, lands in the
`catch` and settles with status Error instead. -/
theorem c4_success_sets_status_and_link (s : ModalState) (u : JsStrField)
    (hs : s.isSubmitting = true) :
    (step (.submitComplete (.resp true (.parsed u))) s).1.submitStatus = .success ∧
    (step (.submitComplete (.resp true (.parsed u))) s).1.issueUrl = u.toOption ∧
    (viewIssueLink (step (.submitComplete (.resp true (.parsed u))) s).1 ≠ none
      ↔ jsTruthy u.toOption = true) ∧
    (step (.submitComplete (.resp true .parseFail)) s).1.submitStatus = .error ∧
    (step (.submitComplete (.resp true .nullBody)) s).1.submitStatus = .error := by
  refine ⟨?_, ?_, ?_, ?_, ?_⟩
  · cases u <;> simp [step, hs, applyOutcome]
  · cases u <;> simp [step, hs, applyOutcome, JsStrField.toOption]
  · cases u with
    | undef =>
        simp [step, hs, applyOutcome, viewIssueLink, JsStrField.toOption, jsTruthy]
    | str x =>
        by_cases hx : x = "" <;>
          simp [step, hs, applyOutcome, viewIssueLink, JsStrField.toOption, jsTruthy, hx]
  · simp [step, hs, applyOutcome]
  · simp [step, hs, applyOutcome]

/-- Witness for C4 (amended): an ok response with a nonempty issue URL. -/
theorem c4_success_sets_status_and_link_witness :
    ({ initState with description := "x", isSubmitting := true } : ModalState).isSubmitting
      = true ∧
    ((step (.submitComplete (.resp true (.parsed (.str "https://issues.example/1"))))
        { initState with description := "x", isSubmitting := true }).1.submitStatus
      = .success ∧
    (step (.submitComplete (.resp true (.parsed (.str "https://issues.example/1"))))
        { initState with description := "x", isSubmitting := true }).1.issueUrl
      = (JsStrField.str "https://issues.example/1").toOption ∧
    (viewIssueLink (step (.submitComplete (.resp true (.parsed (.str "https://issues.example/1"))))
        { initState with description := "x", isSubmitting := true }).1 ≠ none
      ↔ jsTruthy (JsStrField.str "https://issues.example/1").toOption = true) ∧
    (step (.submitComplete (.resp true .parseFail))
        { initState with description := "x", isSubmitting := true }).1.submitStatus = .error ∧
    (step (.submitComplete (.resp true .nullBody))
        { initState with description := "x", isSubmitting := true }).1.submitStatus = .error) :=
  ⟨rfl,
    c4_success_sets_status_and_link
      { initState with description := "x", isSubmitting := true }
      (.str "https://issues.example/1") rfl⟩

/-- C5: while a submission is in flight, a close request leaves the state
unchanged and never invokes the close callback; once the submission
settles (any outcome), a close request does invoke it. -/
theorem c5_close_suppressed_while_submitting (s : ModalState) (out : SubmitOutcome)
    (hs : s.isSubmitting = true) :
    (step .closeRequest s).1 = s ∧
    (step .closeRequest s).2.closeInvoked = false ∧
    (step .closeRequest ((step (.submitComplete out) s).1)).2.closeInvoked = true := by
  refine ⟨?_, ?_, ?_⟩
  · simp [step, handleClose, hs]
  · simp [step, handleClose, hs, noEffects]
  · cases out with
    | netError => simp [step, hs, applyOutcome, handleClose, noEffects]
    | resp ok body =>
        cases body <;> by_cases hok : ok = true <;>
          simp [step, hs, applyOutcome, handleClose, noEffects, hok]

/-- Witness for C5: an in-flight submission that settles with a network
error. -/
theorem c5_close_suppressed_while_submitting_witness :
    ({ initState with description := "x", isSubmitting := true } : ModalState).isSubmitting
      = true ∧
    ((step .closeRequest { initState with description := "x", isSubmitting := true }).1
        = { initState with description := "x", isSubmitting := true } ∧
    (step .closeRequest
        { initState with description := "x", isSubmitting := true }).2.closeInvoked = false ∧
    (step .closeRequest ((step (.submitComplete .netError)
        { initState with description := "x", isSubmitting := true }).1)).2.closeInvoked
      = true) :=
  ⟨rfl,
    c5_close_suppressed_while_submitting
      { initState with description := "x", isSubmitting := true } .netError rfl⟩

/-- A state reached from the initial state by: opening the modal, typing a
description, clicking submit, and the submission failing. Its derived
status is Error. -/
def errorRetryState : ModalState :=
  (step (.submitComplete .netError)
    (step .submitClick
      (step (.setDesc "x")
        (step .openModal initState).1).1).1).1

/-- C6 counterexample: from the reachable Error state, clicking Submit
Report again (retry) moves the derived status straight to Submitting — a
transition the claimed state machine does not contain. -/
theorem c6_counterexample :
    derivedStatus errorRetryState = .error ∧
    derivedStatus (step .submitClick errorRetryState).1 = .submitting ∧
    claimAllowed .error .submitClick .submitting = false := by
  refine ⟨by decide, by decide, by decide⟩

/-- C6 (amended): every step of the component respects the state machine
Idle to Submitting on submit click, Error to Submitting on submit click
(retry), Submitting to Success or Error on completion, and back to Idle on
the next modal open; no other transition between distinct statuses
occurs. -/
theorem c6_status_machine (s : ModalState) (e : Event) :
    codeAllowed (derivedStatus s) e (derivedStatus (step e s).1) = true := by
  cases e with
  | openModal =>
      by_cases hsub : s.isSubmitting <;>
        simp [step, derivedStatus, codeAllowed, hsub]
  | setDesc d =>
      by_cases hsub : s.isSubmitting <;>
        simp [step, derivedStatus, codeAllowed, hsub]
  | submitClick =>
      by_cases hu : submitButtonUsable s
      · have h1 : (¬ s.submitStatus = .success ∧ s.isSubmitting = false)
            ∧ ¬ jsTrim s.description = "" := by
          simpa [submitButtonUsable] using hu
        obtain ⟨⟨hns, hsub⟩, htrim⟩ := h1
        cases hst : s.submitStatus <;>
          simp_all [step, hu, handleSubmitStart, derivedStatus, codeAllowed]
      · simp [step, hu, codeAllowed]
  | submitComplete out =>
      by_cases hsub : s.isSubmitting
      · cases out with
        | netError =>
            simp [step, hsub, applyOutcome, derivedStatus, codeAllowed]
        | resp ok body =>
            cases body <;> by_cases hok : ok = true <;>
              simp [step, hsub, applyOutcome, derivedStatus, codeAllowed, hok]
      · simp [step, hsub, codeAllowed]
  | closeRequest =>
      by_cases hsub : s.isSubmitting <;>
        simp [step, handleClose, hsub, codeAllowed]

/-- C7 counterexample: a non-ok response is a failure of the
extension-count fetch; the count correctly defaults to 0, but nothing is
logged — the `console.error` sits in the `catch` block, and a non-ok
response throws nothing. -/
theorem c7_counterexample :
    extFailure (.resp false (.arrayOf 3)) = true ∧
    getExtensionCount (.resp false (.arrayOf 3)) = (0, false) := by
  refine ⟨rfl, rfl⟩

/-- C7 (amended): on every failure of the extension-count fetch the count
is 0 (and totality embeds that no exception escapes), and the failure is
logged exactly when an exception was thrown inside the `try` — a throwing
fetch or a throwing body parse — not when the response is merely
non-ok. -/
theorem c7_failure_defaults (f : ExtFetch) (h : extFailure f = true) :
    (getExtensionCount f).1 = 0 ∧ (getExtensionCount f).2 = extFetchThrew f := by
  cases f with
  | netError => simp [getExtensionCount, extFetchThrew]
  | resp ok body =>
      cases ok <;> cases body <;>
        simp_all [getExtensionCount, extFetchThrew, extFailure]

/-- Witness for C7 (amended): a non-ok response with a non-array body. -/
theorem c7_failure_defaults_witness :
    extFailure (.resp false .notArray) = true ∧
    ((getExtensionCount (.resp false .notArray)).1 = 0 ∧
      (getExtensionCount (.resp false .notArray)).2 = extFetchThrew (.resp false .notArray)) :=
  ⟨rfl, c7_failure_defaults (.resp false .notArray) rfl⟩

/-- C8 counterexample: the serialized payload's field list is not the
claimed four fields — it also carries `recentErrors`. -/
theorem c8_counterexample :
    ¬ ((issueData "x" none [] "t").map Prod.fst
        = ["title", "description", "systemInfo", "timestamp"]) ∧
    "recentErrors" ∈ (issueData "x" none [] "t").map Prod.fst := by
  refine ⟨by decide, by decide⟩

/-- C8 (amended): for every input, the report payload is a JSON object
with exactly the fields title, description, systemInfo, recentErrors and
timestamp, in that order. -/
theorem c8_payload_fields (d : String) (si : Option SystemInfo)
    (errs : List String) (ts : String) :
    (issueData d si errs ts).map Prod.fst
      = ["title", "description", "systemInfo", "recentErrors", "timestamp"] := rfl

/-- C9: when the config accessor yields nothing for either version key and
the platform bridge is unavailable, the collected SystemInfo holds the
literal fallbacks: version "Development", platform and architecture
"Unknown" — for every user agent and every fetch outcome. -/
theorem c9_fallbacks (ua : String) (ext : ExtFetch) (prov : ProvFetch) :
    (collectSystemInfo none none none none ua ext prov).gooseVersion = "Development" ∧
    (collectSystemInfo none none none none ua ext prov).platform = "Unknown" ∧
    (collectSystemInfo none none none none ua ext prov).architecture = "Unknown" :=
  ⟨rfl, rfl, rfl⟩

/-- C10: the generated title is the literal prefix followed by the whole
description when it has at most 60 characters, and by its first 60
characters plus an appended "..." exactly when it is longer than 60. -/
theorem c10_title_format (d : String) :
    (d.data.length ≤ 60 → mkTitle d = "[FAILURE REPORT] " ++ d) ∧
    (60 < d.data.length →
      (d.data.take 60).length = 60 ∧
      mkTitle d = "[FAILURE REPORT] " ++ String.mk (d.data.take 60) ++ "...") := by
  have hlen : d.length = d.data.length := rfl
  constructor
  · intro h
    have ht : d.data.take 60 = d.data := List.take_of_length_le h
    have hif : ¬ (60 < d.length) := by rw [hlen]; omega
    simp [mkTitle, ht, hif]
  · intro h
    have hl : 60 < d.length := by rw [hlen]; exact h
    refine ⟨?_, ?_⟩
    · rw [List.length_take]
      omega
    · simp [mkTitle, hl]

/-- A 61-character description, exercising the truncation branch. -/
def longDescription : String := String.mk (List.replicate 61 'a')

/-- Witness for C10: a short description passes through whole; the
61-character description is cut to 60 characters with "..." appended. -/
theorem c10_title_format_witness :
    ("hello".data.length ≤ 60 ∧ mkTitle "hello" = "[FAILURE REPORT] hello") ∧
    (60 < longDescription.data.length ∧
      ((longDescription.data.take 60).length = 60 ∧
        mkTitle longDescription
          = "[FAILURE REPORT] " ++ String.mk (longDescription.data.take 60) ++ "...")) :=
  ⟨⟨by decide, (c10_title_format "hello").1 (by decide)⟩,
   ⟨by decide, (c10_title_format longDescription).2 (by decide)⟩⟩

end ReportFailureModal
